import Mathlib

/-!
Verification of the GoBankingAPI transfer engine.

The definitions below are a shallow embedding of the Go sources:
`Account`, `TransferRequest` (types.go area of the unnamed part),
`GetAccountByNumber` / `UpdateAccountBalance` / `BeginTransaction`
(storage.go), and `validateTransfer` / `performTransfer` /
`handleTransfer` (api handlers in the unnamed part).

Modelling conventions:
* Go `int64` / `int` fields become `ℤ` (ledger arithmetic stays far from
  the 2^63 boundary, so wraparound is not modelled).
* Go `float64` request amounts become `ℚ`; the Go conversion
  `int64(x)` (truncation toward zero) becomes `qtrunc`.
* The store is the list of rows of the `account` table.  A SQL
  transaction is modelled by threading a pending store value:
  `Commit` installs it, `Rollback` (the deferred cleanup in
  `performTransfer`) discards it and keeps the original store.
* I/O failures of the store driver (begin / exec / commit) are injected
  through an `Env` of booleans, one per fallible step, mirroring the
  `if err != nil` branches of the Go code; `Env.now` stands for
  `time.Now()` in the receipt.
-/

namespace GoBank

/-- Go's `int64(x)` conversion of a float: truncation toward zero,
here on an exact rational. -/
def qtrunc (q : ℚ) : ℤ := Int.tdiv q.num q.den

/-- `Account` struct: `ID`, `FirstName`, `LastName`, `Number`,
`EncryptedPassword`, `Balance` (int64, minor units), `CreatedAt`
(modelled as an abstract tick). -/
structure Account where
  id : ℤ
  firstName : String
  lastName : String
  number : ℤ
  encryptedPassword : String
  balance : ℤ
  createdAt : ℕ
deriving Repr, DecidableEq

/-- The rows of the `account` table. -/
structure Store where
  accounts : List Account
deriving Repr, DecidableEq

/-- `TransferRequest`: `{fromAccount: int64, toAccount: int64, amount: float64}`. -/
structure TransferRequest where
  fromAccountNumber : ℤ
  toAccountNumber : ℤ
  amount : ℚ
deriving Repr, DecidableEq

/-- The distinct `fmt.Errorf` failures of `validateTransfer` and
`performTransfer`, one constructor per error string. -/
inductive TransferError where
  /-- "transfer amount must be positive" -/
  | invalidAmount
  /-- "invalid source account" -/
  | invalidSourceAccount
  /-- "invalid destination account" -/
  | invalidDestinationAccount
  /-- "cannot transfer to the same account" -/
  | selfTransfer
  /-- "insufficient balance" -/
  | insufficientFunds
  /-- "source account not found" -/
  | sourceNotFound
  /-- "destination account not found" -/
  | destinationNotFound
  /-- "could not begin transaction: %v" -/
  | beginFailed
  /-- "failed to deduct from source account: %v" -/
  | debitFailed
  /-- "failed to credit destination account: %v" -/
  | creditFailed
  /-- "failed to commit transfer: %v" -/
  | commitFailed
deriving Repr, DecidableEq

/-- The success map returned by `performTransfer`:
`{"status", "from_account", "to_account", "amount", "transferred_at"}`. -/
structure Receipt where
  status : String
  fromAccount : ℤ
  toAccount : ℤ
  amount : ℚ
  transferredAt : ℕ
deriving Repr, DecidableEq

/-- Failure injection for the store driver's fallible I/O steps, plus
the clock read by the receipt. -/
structure Env where
  beginOk : Bool
  debitOk : Bool
  creditOk : Bool
  commitOk : Bool
  now : ℕ
deriving Repr, DecidableEq

/-- `GetAccountByNumber`: `SELECT ... FROM account WHERE account_number = $1`
via `QueryRow` — the first matching row, or `sql.ErrNoRows`. -/
def getAccountByNumber (s : Store) (number : ℤ) : Option Account :=
  s.accounts.find? (fun a => a.number == number)

/-- The conversion in `UpdateAccountBalance`:
`amountInCents := int64(amount * 100)`. -/
def toCents (amount : ℚ) : ℤ := qtrunc (amount * 100)

/-- `UpdateAccountBalance`: `UPDATE account SET balance = balance + $1
WHERE id = $2` with `$1 = int64(amount * 100)`, applied to the supplied
(pending) store state. -/
def updateAccountBalance (s : Store) (accountID : ℤ) (amount : ℚ) : Store :=
  { accounts := s.accounts.map (fun a =>
      if a.id = accountID then { a with balance := a.balance + toCents amount } else a) }

/-- `validateTransfer`, instrumented with the ordered list of account
numbers passed to `GetAccountByNumber` (so that "before any lookup"
is observable).  The checks appear in source order: positivity,
source lookup, destination lookup, self-transfer, balance. -/
def validateTransfer (s : Store) (req : TransferRequest) :
    Except TransferError Unit × List ℤ :=
  if req.amount ≤ 0 then
    (.error .invalidAmount, [])
  else
    match getAccountByNumber s req.fromAccountNumber with
    | none => (.error .invalidSourceAccount, [req.fromAccountNumber])
    | some fromAccount =>
      match getAccountByNumber s req.toAccountNumber with
      | none => (.error .invalidDestinationAccount,
                 [req.fromAccountNumber, req.toAccountNumber])
      | some toAccount =>
        if fromAccount.number = toAccount.number then
          (.error .selfTransfer, [req.fromAccountNumber, req.toAccountNumber])
        else if fromAccount.balance < qtrunc req.amount then
          -- the Go comparison `fromAccount.Balance < int64(req.Amount)`:
          -- a minor-unit balance against the truncated major-unit amount
          (.error .insufficientFunds, [req.fromAccountNumber, req.toAccountNumber])
        else
          (.ok (), [req.fromAccountNumber, req.toAccountNumber])

/-- `performTransfer`: re-resolve both accounts, begin a transaction,
debit source, credit destination, commit.  `defer tx.Rollback()`
means every error path returns the original store; only a successful
commit installs the pending state. -/
def performTransfer (env : Env) (s : Store) (req : TransferRequest) :
    Except TransferError Receipt × Store :=
  match getAccountByNumber s req.fromAccountNumber with
  | none => (.error .sourceNotFound, s)
  | some fromAccount =>
    match getAccountByNumber s req.toAccountNumber with
    | none => (.error .destinationNotFound, s)
    | some toAccount =>
      if env.beginOk then
        if env.debitOk then
          let afterDebit := updateAccountBalance s fromAccount.id (-req.amount)
          if env.creditOk then
            let afterCredit := updateAccountBalance afterDebit toAccount.id req.amount
            if env.commitOk then
              (.ok { status := "success",
                     fromAccount := req.fromAccountNumber,
                     toAccount := req.toAccountNumber,
                     amount := req.amount,
                     transferredAt := env.now }, afterCredit)
            else (.error .commitFailed, s)
          else (.error .creditFailed, s)
        else (.error .debitFailed, s)
      else (.error .beginFailed, s)

/-- `handleTransfer` (POST body already decoded): validate, then perform. -/
def handleTransfer (env : Env) (s : Store) (req : TransferRequest) :
    Except TransferError Receipt × Store :=
  match (validateTransfer s req).1 with
  | .error e => (.error e, s)
  | .ok _ => performTransfer env s req

/-- Total of all stored balances, for the conservation property. -/
def sumBalances (s : Store) : ℤ := (s.accounts.map Account.balance).sum

/-- Balance currently stored for the (first) row with the given `id`. -/
def balanceOfId (s : Store) (i : ℤ) : Option ℤ :=
  (s.accounts.find? (fun a => a.id == i)).map Account.balance

/-! ### Arithmetic facts about the truncating conversions -/

theorem qtrunc_of_nonneg {q : ℚ} (h : 0 ≤ q) : qtrunc q = ⌊q⌋ := by
  rw [qtrunc, Int.tdiv_eq_ediv (Rat.num_nonneg.mpr h) (Int.natCast_nonneg q.den),
    Rat.floor_def]

theorem qtrunc_neg (q : ℚ) : qtrunc (-q) = -qtrunc q := by
  rw [qtrunc, qtrunc, Rat.num_neg_eq_neg_num, show (-q).den = q.den from rfl,
    Int.neg_tdiv]

theorem qtrunc_of_nonpos {q : ℚ} (h : q ≤ 0) : qtrunc q = ⌈q⌉ := by
  have h2 : qtrunc (-q) = ⌊-q⌋ := qtrunc_of_nonneg (by linarith)
  rw [qtrunc_neg, Int.floor_neg] at h2
  omega

theorem qtrunc_eq_zero {q : ℚ} (h0 : 0 ≤ q) (h1 : q < 1) : qtrunc q = 0 := by
  rw [qtrunc_of_nonneg h0]
  exact Int.floor_eq_zero_iff.mpr ⟨h0, h1⟩

theorem toCents_neg (q : ℚ) : toCents (-q) = -toCents q := by
  rw [toCents, toCents, neg_mul, qtrunc_neg]

theorem toCents_eq_zero {q : ℚ} (h0 : 0 ≤ q) (h1 : q < 1 / 100) : toCents q = 0 :=
  qtrunc_eq_zero (by positivity) (by linarith)

/-! ### Facts about lookups and updates -/

theorem getAccountByNumber_number {s : Store} {n : ℤ} {a : Account}
    (h : getAccountByNumber s n = some a) : a.number = n := by
  simpa using List.find?_some h

theorem getAccountByNumber_mem {s : Store} {n : ℤ} {a : Account}
    (h : getAccountByNumber s n = some a) : a ∈ s.accounts :=
  List.mem_of_find?_eq_some h

/-- When `toCents` maps the delta to zero cents, the SQL update is the
identity on the store. -/
theorem updateAccountBalance_zero {q : ℚ} (h : toCents q = 0)
    (s : Store) (i : ℤ) : updateAccountBalance s i q = s := by
  simp [updateAccountBalance, h]

/-- In a table whose `id` column is duplicate-free, `find?` by the id of
a member returns exactly that member. -/
theorem find?_id_eq_of_nodup {l : List Account}
    (hnd : (l.map Account.id).Nodup) {x : Account} (hx : x ∈ l) :
    l.find? (fun a => a.id == x.id) = some x := by
  induction l with
  | nil => cases hx
  | cons a t ih =>
    rw [List.map_cons, List.nodup_cons] at hnd
    rcases List.mem_cons.mp hx with rfl | hxt
    · simp [List.find?]
    · have hne : (a.id == x.id) = false := by
        simp only [beq_eq_false_iff_ne, ne_eq]
        intro hid
        exact hnd.1 (hid ▸ List.mem_map_of_mem Account.id hxt)
      simp [List.find?, hne, ih hnd.2 hxt]

theorem sum_map_ite_zero {l : List Account} {i : ℤ}
    (h : ∀ a ∈ l, a.id ≠ i) (v : ℤ) :
    (l.map (fun a => if a.id = i then v else 0)).sum = 0 := by
  induction l with
  | nil => simp
  | cons a t ih =>
    have := h a (List.mem_cons_self a t)
    simp [this, ih (fun b hb => h b (List.mem_cons_of_mem a hb))]

theorem sum_map_ite_eq {l : List Account}
    (hnd : (l.map Account.id).Nodup) {x : Account} (hx : x ∈ l) (v : ℤ) :
    (l.map (fun a => if a.id = x.id then v else 0)).sum = v := by
  induction l with
  | nil => cases hx
  | cons a t ih =>
    rw [List.map_cons, List.nodup_cons] at hnd
    rcases List.mem_cons.mp hx with rfl | hxt
    · have ht : ∀ b ∈ t, b.id ≠ x.id := by
        intro b hb hid
        exact hnd.1 (hid ▸ List.mem_map_of_mem Account.id hb)
      simp [sum_map_ite_zero ht v]
    · have hne : a.id ≠ x.id := by
        intro hid
        exact hnd.1 (hid ▸ List.mem_map_of_mem Account.id hxt)
      simp [hne, ih hnd.2 hxt]

theorem sum_map_add3 (l : List Account) (f g h : Account → ℤ) :
    (l.map (fun a => f a + g a + h a)).sum =
      (l.map f).sum + (l.map g).sum + (l.map h).sum := by
  induction l with
  | nil => simp
  | cons a t ih => simp [ih]; ring

theorem find?_id_map (l : List Account) (f : Account → Account)
    (hf : ∀ a, (f a).id = a.id) (i : ℤ) :
    (l.map f).find? (fun a => a.id == i) =
      (l.find? (fun a => a.id == i)).map f := by
  rw [List.find?_map]
  have hcomp : ((fun a => a.id == i) ∘ f) = (fun a => a.id == i) := by
    funext a
    simp [Function.comp, hf]
  rw [hcomp]

/-! ### Concrete fixtures used by witnesses and counterexamples -/

/-- Source account of the example ledger: number 1001, 50 minor units. -/
def acctA : Account where
  id := 1
  firstName := "Alice"
  lastName := "Austin"
  number := 1001
  encryptedPassword := "hashA"
  balance := 50
  createdAt := 0

/-- Destination account of the example ledger: number 1002, 5 minor units. -/
def acctB : Account where
  id := 2
  firstName := "Bob"
  lastName := "Birch"
  number := 1002
  encryptedPassword := "hashB"
  balance := 5
  createdAt := 0

/-- A two-row ledger with only non-negative balances. -/
def twoAcctStore : Store := { accounts := [acctA, acctB] }

/-- A request for 10 currency units (1000 minor units) from an account
holding only 50 minor units. -/
def overdraftReq : TransferRequest where
  fromAccountNumber := 1001
  toAccountNumber := 1002
  amount := 10

/-- Environment in which every store I/O step succeeds. -/
def envAllOk : Env where
  beginOk := true
  debitOk := true
  creditOk := true
  commitOk := true
  now := 0

/-- Environment in which the credit `UPDATE` fails after a successful debit. -/
def envCreditFail : Env where
  beginOk := true
  debitOk := true
  creditOk := false
  commitOk := true
  now := 0

/-- A well-funded request between the two example accounts. -/
def smallReq : TransferRequest where
  fromAccountNumber := 1001
  toAccountNumber := 1002
  amount := 1 / 4

/-- A self-transfer request with a non-positive amount. -/
def selfZeroReq : TransferRequest where
  fromAccountNumber := 1001
  toAccountNumber := 1001
  amount := 0

/-- A self-transfer request with a positive amount. -/
def selfPosReq : TransferRequest where
  fromAccountNumber := 1001
  toAccountNumber := 1001
  amount := 5

/-- A sub-cent request: 1/200 of a currency unit, i.e. half a cent. -/
def subCentReq : TransferRequest where
  fromAccountNumber := 1001
  toAccountNumber := 1002
  amount := 1 / 200

end GoBank

namespace GoBank

/-! ### The claims -/

/-- C6: a transfer request with amount `0` or negative is rejected with
`InvalidAmount` ("transfer amount must be positive"), and the rejection
happens before any account lookup: the lookup trace is empty, for every
store. -/
theorem c6_nonpositive_amount_rejected (s : Store) (req : TransferRequest)
    (h : req.amount ≤ 0) :
    validateTransfer s req = (.error .invalidAmount, []) := by
  simp [validateTransfer, if_pos h]

theorem c6_nonpositive_amount_rejected_witness :
    validateTransfer twoAcctStore selfZeroReq = (.error .invalidAmount, []) :=
  c6_nonpositive_amount_rejected twoAcctStore selfZeroReq (by norm_num [selfZeroReq])

/-- C9: when validation fails, `handleTransfer` returns that validation
error and the store is completely unchanged, whatever the transaction
environment would have done. -/
theorem c9_validation_has_no_side_effects (env : Env) (s : Store)
    (req : TransferRequest) (e : TransferError)
    (h : (validateTransfer s req).1 = .error e) :
    handleTransfer env s req = (.error e, s) := by
  simp [handleTransfer, h]

theorem c9_validation_has_no_side_effects_witness :
    handleTransfer envCreditFail twoAcctStore selfZeroReq =
      (.error .invalidAmount, twoAcctStore) :=
  c9_validation_has_no_side_effects envCreditFail twoAcctStore selfZeroReq
    .invalidAmount (by norm_num [validateTransfer, selfZeroReq])

/-- C4: every failing execution-stage path of `performTransfer`
(lookup, begin, debit, credit, or commit) returns the original store:
the deferred rollback discards the pending debit/credit, so no partial
debit persists. -/
theorem c4_execution_failure_rolls_back (env : Env) (s : Store)
    (req : TransferRequest) (e : TransferError) (s' : Store)
    (h : performTransfer env s req = (.error e, s')) : s' = s := by
  unfold performTransfer at h
  repeat' split at h
  all_goals simp_all

theorem c4_execution_failure_rolls_back_witness :
    (performTransfer envCreditFail twoAcctStore smallReq).2 = twoAcctStore :=
  c4_execution_failure_rolls_back envCreditFail twoAcctStore smallReq
    .creditFailed _ (by
      norm_num [performTransfer, getAccountByNumber, twoAcctStore, acctA, acctB,
        smallReq, envCreditFail, List.find?, beq_eq_decide])

/-- C5 counterexample: a request with identical source and destination
account numbers but amount `0` is rejected with `InvalidAmount`, not
`SelfTransfer` — the positivity check runs first. -/
theorem c5_self_transfer_counterexample :
    (validateTransfer twoAcctStore selfZeroReq).1 = .error .invalidAmount ∧
    TransferError.invalidAmount ≠ TransferError.selfTransfer := by
  constructor
  · norm_num [validateTransfer, selfZeroReq]
  · decide

/-- C5 (amended): a request with strictly positive amount whose identical
source and destination account number resolves to an existing account is
rejected with `SelfTransfer`, regardless of any balance. -/
theorem c5_self_transfer_rejected (s : Store) (req : TransferRequest)
    (X : Account) (hpos : 0 < req.amount)
    (hX : getAccountByNumber s req.fromAccountNumber = some X)
    (heq : req.fromAccountNumber = req.toAccountNumber) :
    (validateTransfer s req).1 = .error .selfTransfer := by
  have hY : getAccountByNumber s req.toAccountNumber = some X := heq ▸ hX
  simp [validateTransfer, not_le.mpr hpos, hX, hY]

theorem c5_self_transfer_rejected_witness :
    (validateTransfer twoAcctStore selfPosReq).1 = .error .selfTransfer :=
  c5_self_transfer_rejected twoAcctStore selfPosReq acctA
    (by norm_num [selfPosReq])
    (by norm_num [getAccountByNumber, twoAcctStore, acctA, acctB, selfPosReq,
      List.find?, beq_eq_decide])
    rfl

/-- C8: `performTransfer` returns a receipt exactly when both lookups
and every transaction step (begin, debit, credit, commit) succeed, and
that receipt is `{status: "success"}` with the request's account
numbers, the requested amount, and the clock value; every failing path
returns an error and no receipt. -/
theorem c8_receipt_iff_commit (env : Env) (s : Store) (req : TransferRequest) :
    ((∃ r s', performTransfer env s req = (.ok r, s')) ↔
      ((∃ X, getAccountByNumber s req.fromAccountNumber = some X) ∧
       (∃ Y, getAccountByNumber s req.toAccountNumber = some Y) ∧
       env.beginOk = true ∧ env.debitOk = true ∧
       env.creditOk = true ∧ env.commitOk = true)) ∧
    (∀ r s', performTransfer env s req = (.ok r, s') →
      r = { status := "success", fromAccount := req.fromAccountNumber,
            toAccount := req.toAccountNumber, amount := req.amount,
            transferredAt := env.now }) := by
  cases hX : getAccountByNumber s req.fromAccountNumber with
  | none => simp [performTransfer, hX]
  | some X =>
    cases hY : getAccountByNumber s req.toAccountNumber with
    | none => simp [performTransfer, hX, hY]
    | some Y =>
      cases hb : env.beginOk <;> cases hd : env.debitOk <;>
        cases hc : env.creditOk <;> cases hk : env.commitOk <;>
        simp [performTransfer, hX, hY, hb, hd, hc, hk]

theorem c8_receipt_iff_commit_witness :
    ∃ r s', performTransfer envAllOk twoAcctStore smallReq = (.ok r, s') :=
  (c8_receipt_iff_commit envAllOk twoAcctStore smallReq).1.mpr
    ⟨⟨acctA, by norm_num [getAccountByNumber, twoAcctStore, acctA, acctB,
        smallReq, List.find?, beq_eq_decide]⟩,
     ⟨acctB, by norm_num [getAccountByNumber, twoAcctStore, acctA, acctB,
        smallReq, List.find?, beq_eq_decide]⟩,
     rfl, rfl, rfl, rfl⟩

/-- C10: a transfer of an amount strictly between 0 and 0.01 currency
units between two existing, distinct accounts with a non-negative source
balance commits successfully and returns a success receipt carrying that
amount — yet `int64(amount * 100)` is 0 cents, so neither stored balance
changes at all. -/
theorem c10_subcent_transfer_is_silent_noop (env : Env) (s : Store)
    (req : TransferRequest) (X Y : Account)
    (hX : getAccountByNumber s req.fromAccountNumber = some X)
    (hY : getAccountByNumber s req.toAccountNumber = some Y)
    (hne : req.fromAccountNumber ≠ req.toAccountNumber)
    (hbal : 0 ≤ X.balance)
    (h0 : 0 < req.amount) (h1 : req.amount < 1 / 100)
    (hb : env.beginOk = true) (hd : env.debitOk = true)
    (hc : env.creditOk = true) (hk : env.commitOk = true) :
    handleTransfer env s req =
      (.ok { status := "success", fromAccount := req.fromAccountNumber,
             toAccount := req.toAccountNumber, amount := req.amount,
             transferredAt := env.now }, s) := by
  have hc0 : toCents req.amount = 0 := toCents_eq_zero h0.le h1
  have hcn : toCents (-req.amount) = 0 := by rw [toCents_neg, hc0, neg_zero]
  have hq0 : qtrunc req.amount = 0 := qtrunc_eq_zero h0.le (by linarith)
  have hnum : X.number ≠ Y.number := by
    rw [getAccountByNumber_number hX, getAccountByNumber_number hY]; exact hne
  have hvb : ¬ X.balance < qtrunc req.amount := by rw [hq0]; omega
  simp [handleTransfer, validateTransfer, performTransfer, not_le.mpr h0,
    hX, hY, hnum, hvb, hb, hd, hc, hk,
    updateAccountBalance_zero hc0, updateAccountBalance_zero hcn]

theorem c10_subcent_transfer_is_silent_noop_witness :
    handleTransfer envAllOk twoAcctStore subCentReq =
      (.ok { status := "success", fromAccount := 1001, toAccount := 1002,
             amount := 1 / 200, transferredAt := 0 }, twoAcctStore) :=
  c10_subcent_transfer_is_silent_noop envAllOk twoAcctStore subCentReq
    acctA acctB
    (by norm_num [getAccountByNumber, twoAcctStore, acctA, acctB, subCentReq,
      List.find?, beq_eq_decide])
    (by norm_num [getAccountByNumber, twoAcctStore, acctA, acctB, subCentReq,
      List.find?, beq_eq_decide])
    (by norm_num [subCentReq]) (by norm_num [acctA])
    (by norm_num [subCentReq]) (by norm_num [subCentReq])
    rfl rfl rfl rfl

/-- C7: the stored delta is the major-unit amount multiplied by 100 and
truncated toward zero (floor above zero, ceiling below), and the update
itself is a single additive mutation `balance = balance + delta` on the
rows whose `id` matches, leaving every other column and row untouched. -/
theorem c7_minor_unit_additive_update :
    (∀ q : ℚ, (0 ≤ q → toCents q = ⌊q * 100⌋) ∧
              (q ≤ 0 → toCents q = ⌈q * 100⌉)) ∧
    (∀ (s : Store) (i : ℤ) (q : ℚ),
      List.Forall₂
        (fun a a' =>
          a'.id = a.id ∧ a'.firstName = a.firstName ∧ a'.lastName = a.lastName ∧
          a'.number = a.number ∧ a'.encryptedPassword = a.encryptedPassword ∧
          a'.createdAt = a.createdAt ∧
          a'.balance = a.balance + (if a.id = i then toCents q else 0))
        s.accounts (updateAccountBalance s i q).accounts) := by
  constructor
  · intro q
    refine ⟨fun h => qtrunc_of_nonneg (by positivity),
            fun h => qtrunc_of_nonpos (by nlinarith)⟩
  · intro s i q
    rw [updateAccountBalance, List.forall₂_map_right_iff, List.forall₂_same]
    intro a _
    by_cases hid : a.id = i <;> simp [hid]

theorem c7_minor_unit_additive_update_witness :
    toCents (157 / 50) = 314 ∧
    List.Forall₂
      (fun a a' =>
        a'.id = a.id ∧ a'.firstName = a.firstName ∧ a'.lastName = a.lastName ∧
        a'.number = a.number ∧ a'.encryptedPassword = a.encryptedPassword ∧
        a'.createdAt = a.createdAt ∧
        a'.balance = a.balance + (if a.id = 1 then toCents (157 / 50) else 0))
      twoAcctStore.accounts (updateAccountBalance twoAcctStore 1 (157 / 50)).accounts := by
  constructor
  · rw [(c7_minor_unit_additive_update.1 (157 / 50)).1 (by norm_num)]
    rw [show (157 / 50 : ℚ) * 100 = 314 by norm_num]
    norm_num
  · exact c7_minor_unit_additive_update.2 twoAcctStore 1 (157 / 50)

/-- The ledger after the overdraft request commits: the source account is
overdrawn by 950 minor units. -/
def overdrawnStore : Store :=
  { accounts := [{ acctA with balance := -950 }, { acctB with balance := 1005 }] }

/-- The receipt the overdraft request receives. -/
def overdraftReceipt : Receipt where
  status := "success"
  fromAccount := 1001
  toAccount := 1002
  amount := 10
  transferredAt := 0

/-- C1 (code bug): the request amount is 1000 minor units against a
source balance of 50 minor units, so the claim demands an
`InsufficientFunds` rejection — but validation compares the minor-unit
balance against the *major-unit* amount (`Balance < int64(Amount)`,
i.e. 50 < 10 fails), accepts the request, and the transfer commits and
mutates both balances. -/
theorem c1_insufficient_funds_not_enforced :
    toCents overdraftReq.amount = 1000 ∧
    acctA.balance = 50 ∧
    getAccountByNumber twoAcctStore overdraftReq.fromAccountNumber = some acctA ∧
    acctA.balance < toCents overdraftReq.amount ∧
    (validateTransfer twoAcctStore overdraftReq).1 = .ok () ∧
    handleTransfer envAllOk twoAcctStore overdraftReq =
      (.ok overdraftReceipt, overdrawnStore) ∧
    overdrawnStore ≠ twoAcctStore := by
  refine ⟨?_, rfl, ?_, ?_, ?_, ?_, by decide⟩
  · norm_num [toCents, qtrunc, overdraftReq,
      show (10 : ℚ) * 100 = 1000 by norm_num]
  · norm_num [getAccountByNumber, twoAcctStore, acctA, acctB, overdraftReq,
      List.find?, beq_eq_decide]
  · norm_num [acctA, toCents, qtrunc, overdraftReq,
      show (10 : ℚ) * 100 = 1000 by norm_num]
  · norm_num [validateTransfer, getAccountByNumber, twoAcctStore, acctA, acctB,
      overdraftReq, qtrunc, List.find?, beq_eq_decide]
  · norm_num [handleTransfer, validateTransfer, performTransfer,
      getAccountByNumber, updateAccountBalance, toCents, qtrunc,
      twoAcctStore, overdraftReq, envAllOk, acctA, acctB, overdraftReceipt,
      overdrawnStore, List.find?, beq_eq_decide]

/-- C2 (code bug): starting from a store whose balances are all
non-negative, a transfer that passes validation commits and leaves the
source account at -950 minor units — the `balance >= 0` invariant does
not survive a committed transaction. -/
theorem c2_negative_balance_reachable :
    (∀ a ∈ twoAcctStore.accounts, 0 ≤ a.balance) ∧
    handleTransfer envAllOk twoAcctStore overdraftReq =
      (.ok overdraftReceipt, overdrawnStore) ∧
    ∃ a ∈ overdrawnStore.accounts, a.balance < 0 := by
  refine ⟨by decide, ?_, by decide⟩
  norm_num [handleTransfer, validateTransfer, performTransfer,
    getAccountByNumber, updateAccountBalance, toCents, qtrunc,
    twoAcctStore, overdraftReq, envAllOk, acctA, acctB, overdraftReceipt,
    overdrawnStore, List.find?, beq_eq_decide]

/-- C3: on any well-formed ledger (duplicate-free ids), a transfer that
validates and commits debits the source row by exactly
`int64(amount * 100)` minor units, credits the destination row by the
same quantity, touches no other row or column, and preserves the sum of
all balances; every aborted `performTransfer` leaves the store
untouched. -/
theorem c3_conservation :
    (∀ (env : Env) (s : Store) (req : TransferRequest) (r : Receipt) (s' : Store)
        (X Y : Account),
        (s.accounts.map Account.id).Nodup →
        getAccountByNumber s req.fromAccountNumber = some X →
        getAccountByNumber s req.toAccountNumber = some Y →
        handleTransfer env s req = (.ok r, s') →
        X.id ≠ Y.id ∧
        balanceOfId s X.id = some X.balance ∧
        balanceOfId s' X.id = some (X.balance - toCents req.amount) ∧
        balanceOfId s Y.id = some Y.balance ∧
        balanceOfId s' Y.id = some (Y.balance + toCents req.amount) ∧
        s'.accounts = s.accounts.map (fun a =>
          { a with balance := a.balance
              + (if a.id = X.id then -toCents req.amount else 0)
              + (if a.id = Y.id then toCents req.amount else 0) }) ∧
        sumBalances s' = sumBalances s) ∧
    (∀ (env : Env) (s : Store) (req : TransferRequest) (e : TransferError)
        (s' : Store), performTransfer env s req = (.error e, s') → s' = s) := by
  constructor
  · intro env s req r s' X Y hnd hX hY hht
    -- step 1: validation succeeded and performTransfer returned ok
    cases hvc : (validateTransfer s req).1 with
    | error e => simp [handleTransfer, hvc] at hht
    | ok u =>
      have hperf : performTransfer env s req = (.ok r, s') := by
        simpa [handleTransfer, hvc] using hht
      -- step 2: the self-transfer check passed
      have hnum : X.number ≠ Y.number := by
        intro hnn
        simp only [validateTransfer, hX, hY, hnn, if_pos rfl] at hvc
        split at hvc <;> simp_all
      have hXm : X ∈ s.accounts := getAccountByNumber_mem hX
      have hYm : Y ∈ s.accounts := getAccountByNumber_mem hY
      have hidne : X.id ≠ Y.id := fun h =>
        hnum (congrArg Account.number (List.inj_on_of_nodup_map hnd hXm hYm h))
      -- step 3: extract the committed store
      cases hb : env.beginOk <;> cases hd : env.debitOk <;>
        cases hc : env.creditOk <;> cases hk : env.commitOk <;>
        simp only [performTransfer, hX, hY, hb, hd, hc, hk, Bool.false_eq_true,
          if_true, if_false, Prod.mk.injEq, Except.ok.injEq, reduceCtorEq,
          false_and, and_false] at hperf
      obtain ⟨hr, hs⟩ := hperf
      -- step 4: the committed store in map form
      have hmap : s'.accounts = s.accounts.map (fun a =>
          { a with balance := a.balance
              + (if a.id = X.id then -toCents req.amount else 0)
              + (if a.id = Y.id then toCents req.amount else 0) }) := by
        rw [← hs]
        simp only [updateAccountBalance, List.map_map]
        apply List.map_congr_left
        intro a _
        by_cases h1 : a.id = X.id <;> by_cases h2 : a.id = Y.id
        · exact absurd (h1.symm.trans h2) hidne
        all_goals
          simp [Function.comp, h1, h2, toCents_neg, hidne, Ne.symm hidne]
      refine ⟨hidne, ?_, ?_, ?_, ?_, hmap, ?_⟩
      · rw [balanceOfId, find?_id_eq_of_nodup hnd hXm]
        rfl
      · rw [balanceOfId, hmap,
          find?_id_map s.accounts (fun a : Account =>
            { a with balance := a.balance
                + (if a.id = X.id then -toCents req.amount else 0)
                + (if a.id = Y.id then toCents req.amount else 0) })
            (fun a => rfl) X.id,
          find?_id_eq_of_nodup hnd hXm]
        simp [hidne, sub_eq_add_neg]
      · rw [balanceOfId, find?_id_eq_of_nodup hnd hYm]
        rfl
      · rw [balanceOfId, hmap,
          find?_id_map s.accounts (fun a : Account =>
            { a with balance := a.balance
                + (if a.id = X.id then -toCents req.amount else 0)
                + (if a.id = Y.id then toCents req.amount else 0) })
            (fun a => rfl) Y.id,
          find?_id_eq_of_nodup hnd hYm]
        simp [Ne.symm hidne]
      · rw [sumBalances, sumBalances, hmap, List.map_map]
        have hcomp : (Account.balance ∘ (fun a : Account =>
            ({ a with balance := a.balance
              + (if a.id = X.id then -toCents req.amount else 0)
              + (if a.id = Y.id then toCents req.amount else 0) } : Account))) =
            fun a => a.balance + (if a.id = X.id then -toCents req.amount else 0)
              + (if a.id = Y.id then toCents req.amount else 0) := by
          funext a; rfl
        rw [hcomp, sum_map_add3 s.accounts Account.balance _ _,
          sum_map_ite_eq hnd hXm, sum_map_ite_eq hnd hYm]
        ring
  · intro env s req e s' h
    unfold performTransfer at h
    repeat' split at h
    all_goals simp_all

/-- The ledger after `smallReq` (25 minor units) commits. -/
def smallStoreAfter : Store :=
  { accounts := [{ acctA with balance := 25 }, { acctB with balance := 30 }] }

/-- The receipt `smallReq` receives. -/
def smallReceipt : Receipt where
  status := "success"
  fromAccount := 1001
  toAccount := 1002
  amount := 1 / 4
  transferredAt := 0

theorem c3_conservation_witness :
    acctA.id ≠ acctB.id ∧
    balanceOfId smallStoreAfter acctA.id =
      some (acctA.balance - toCents smallReq.amount) ∧
    balanceOfId smallStoreAfter acctB.id =
      some (acctB.balance + toCents smallReq.amount) ∧
    sumBalances smallStoreAfter = sumBalances twoAcctStore := by
  have h := c3_conservation.1 envAllOk twoAcctStore smallReq smallReceipt
    smallStoreAfter acctA acctB (by decide)
    (by norm_num [getAccountByNumber, twoAcctStore, acctA, acctB, smallReq,
      List.find?, beq_eq_decide])
    (by norm_num [getAccountByNumber, twoAcctStore, acctA, acctB, smallReq,
      List.find?, beq_eq_decide])
    (by norm_num [handleTransfer, validateTransfer, performTransfer,
      getAccountByNumber, updateAccountBalance, toCents, qtrunc,
      twoAcctStore, smallReq, envAllOk, acctA, acctB, smallReceipt,
      smallStoreAfter, List.find?, beq_eq_decide,
      show Int.tdiv 1 4 = 0 from by decide])
  exact ⟨h.1, h.2.2.1, h.2.2.2.2.1, h.2.2.2.2.2.2⟩

end GoBank
